import Mathlib

/-!
Verification of the CoinSwitch API client scripts (`Get_Price.py`,
`Place_Order.py`, `Get_Portfolio.py`).

The development shallowly embeds the request-signing procedure and the
request dispatcher of the three scripts.  Pure Python string processing
(`urllib.parse.urlencode`, `urllib.parse.unquote_plus`, `urlparse(...).query`,
`bytes.fromhex`, `bytes.hex`, `json.dumps(..., separators=(",", ":"),
sort_keys=True)`) is translated function by function.  The Ed25519 primitive
itself lives in the external `cryptography` package, not in this repository;
it is modelled from the spec as a deterministic function of the seed and the
message that produces a 64-byte signature (see `ed25519Sign`).

Strings are modelled as Lean `String`s (Python `str`), byte strings as
`List Nat` with entries below 256.
-/

/-! ## Basic character and byte helpers -/

/-- Value of a hexadecimal digit character, upper or lower case
(Python's `_hexdig` tables used by `bytes.fromhex` and `urllib.parse.unquote`). -/
def hexVal? (c : Char) : Option Nat :=
  if '0' ≤ c ∧ c ≤ '9' then some (c.toNat - '0'.toNat)
  else if 'a' ≤ c ∧ c ≤ 'f' then some (c.toNat - 'a'.toNat + 10)
  else if 'A' ≤ c ∧ c ≤ 'F' then some (c.toNat - 'A'.toNat + 10)
  else none

/-- Lower-case hexadecimal digit character for a value below 16. -/
def hexCharLower (n : Nat) : Char :=
  "0123456789abcdef".data.getD n '0'

/-- Upper-case hexadecimal digit character for a value below 16
(`urllib.parse.quote` emits upper-case escapes). -/
def hexCharUpper (n : Nat) : Char :=
  "0123456789ABCDEF".data.getD n '0'

/-- Is `c` one of the sixteen lower-case hexadecimal digit characters? -/
def isLowerHexDigit (c : Char) : Bool :=
  ('0' ≤ c && c ≤ '9') || ('a' ≤ c && c ≤ 'f')

/-- UTF-8 encoding of a single character (the bytes of `str.encode("utf-8")`
for that character). -/
def charUtf8 (c : Char) : List Nat :=
  let n := c.toNat
  if n < 0x80 then [n]
  else if n < 0x800 then [0xC0 + n / 0x40, 0x80 + n % 0x40]
  else if n < 0x10000 then
    [0xE0 + n / 0x1000, 0x80 + n / 0x40 % 0x40, 0x80 + n % 0x40]
  else
    [0xF0 + n / 0x40000, 0x80 + n / 0x1000 % 0x40, 0x80 + n / 0x40 % 0x40,
     0x80 + n % 0x40]

/-- UTF-8 encoding of a string, `bytes(s, "utf-8")` in the scripts. -/
def utf8Bytes (s : String) : List Nat :=
  (s.data.map charUtf8).foldr (· ++ ·) []

/-- Is `b` a UTF-8 continuation byte? -/
def isContByte (b : Nat) : Bool :=
  0x80 ≤ b && b < 0xC0

/-- The Unicode replacement character, produced by `errors="replace"` decoding. -/
def replChar : Char := Char.ofNat 0xFFFD

/-- Codepoint to character, with invalid codepoints (surrogates, out of range)
replaced by U+FFFD as `bytes.decode("utf-8", errors="replace")` does. -/
def mkCodepoint (n : Nat) : Char :=
  if n < 0xD800 || (0xDFFF < n && n < 0x110000) then Char.ofNat n else replChar

/-- UTF-8 decoding of a byte list, as `bytes.decode("utf-8", errors="replace")`
inside `urllib.parse.unquote`.  Truncated or malformed sequences become
replacement characters (the exact resynchronization point and replacement
count of CPython's error handler are approximated; no theorem depends on
malformed input, and round trips of `charUtf8` output are exact). -/
def utf8DecodeBytes : List Nat → List Char
  | [] => []
  | b :: rest =>
    if b < 0x80 then Char.ofNat b :: utf8DecodeBytes rest
    else if b < 0xC2 then replChar :: utf8DecodeBytes rest
    else if b < 0xE0 then
      match rest with
      | b2 :: rest2 =>
        if isContByte b2 then
          mkCodepoint ((b - 0xC0) * 0x40 + (b2 - 0x80)) :: utf8DecodeBytes rest2
        else replChar :: utf8DecodeBytes rest2
      | [] => [replChar]
    else if b < 0xF0 then
      match rest with
      | b2 :: b3 :: rest3 =>
        if isContByte b2 && isContByte b3 then
          mkCodepoint ((b - 0xE0) * 0x1000 + (b2 - 0x80) * 0x40 + (b3 - 0x80)) ::
            utf8DecodeBytes rest3
        else replChar :: utf8DecodeBytes rest3
      | _ => [replChar]
    else
      match rest with
      | b2 :: b3 :: b4 :: rest4 =>
        if isContByte b2 && isContByte b3 && isContByte b4 then
          mkCodepoint ((b - 0xF0) * 0x40000 + (b2 - 0x80) * 0x1000 +
            (b3 - 0x80) * 0x40 + (b4 - 0x80)) :: utf8DecodeBytes rest4
        else replChar :: utf8DecodeBytes rest4
      | _ => [replChar]

/-! ## Python `bytes.fromhex` and `bytes.hex` -/

/-- The six ASCII whitespace characters of CPython's `Py_ISSPACE`: space,
tab, line feed, vertical tab, form feed, carriage return. -/
def isPyAsciiSpace (c : Char) : Bool :=
  c = ' ' || c = '\t' || c = '\n' || c.toNat = 0x0B || c.toNat = 0x0C || c = '\r'

/-- Core of Python's `bytes.fromhex`: two hexadecimal digits per byte, with
ASCII whitespace skipped between byte pairs (and at either end); whitespace
inside a pair, a lone trailing digit, or any non-hex character fails with
`ValueError`. -/
def fromhexAux : List Char → Option (List Nat)
  | [] => some []
  | c :: rest =>
    if isPyAsciiSpace c then fromhexAux rest
    else
      match rest with
      | [] => none
      | d :: rest2 =>
        match hexVal? c, hexVal? d with
        | some x, some y => (fromhexAux rest2).map (fun bs => (16 * x + y) :: bs)
        | _, _ => none

/-- Python's `bytes.fromhex(s)`: `none` models the raised `ValueError`. -/
def bytesFromHex (s : String) : Option (List Nat) :=
  fromhexAux s.data

/-- Hex character list of a byte list, two lower-case digits per byte. -/
def hexData : List Nat → List Char
  | [] => []
  | b :: rest => hexCharLower (b / 16 % 16) :: hexCharLower (b % 16) :: hexData rest

/-- Python's `bytes.hex()`: lower-case hexadecimal rendering of a byte string. -/
def bytesHex (bs : List Nat) : String :=
  String.mk (hexData bs)

/-! ## `urllib.parse` helpers -/

/-- Characters `urllib.parse.quote` never escapes (letters, digits, `_.-~`). -/
def isAlwaysSafeChar (c : Char) : Bool :=
  ('A' ≤ c && c ≤ 'Z') || ('a' ≤ c && c ≤ 'z') || ('0' ≤ c && c ≤ '9') ||
    c = '_' || c = '.' || c = '-' || c = '~'

/-- Percent-escape of one byte, upper-case hex as `urllib.parse.quote` emits. -/
def percentByte (b : Nat) : List Char :=
  ['%', hexCharUpper (b / 16 % 16), hexCharUpper (b % 16)]

/-- Encoding of one character under `urllib.parse.quote_plus` with `safe=''`:
space becomes `+`, always-safe characters stay, anything else is
percent-escaped byte by byte of its UTF-8 encoding. -/
def quotePlusChar (c : Char) : List Char :=
  if c = ' ' then ['+']
  else if isAlwaysSafeChar c then [c]
  else ((charUtf8 c).map percentByte).foldr (· ++ ·) []

/-- Python's `urllib.parse.quote_plus(s, safe='')`, the per-field encoder used
by `urlencode`. -/
def quotePlus (s : String) : String :=
  String.mk ((s.data.map quotePlusChar).foldr (· ++ ·) [])

/-- Join a list of strings with a separator. -/
def joinWith (sep : String) : List String → String
  | [] => ""
  | [x] => x
  | x :: y :: rest => x ++ sep ++ joinWith sep (y :: rest)

/-- Python's `urllib.parse.urlencode(params)` over an ordered mapping whose
keys and values are already strings (`urlencode` applies `str()` first;
callers in the scripts pass strings or stringified numbers). -/
def urlencode (ps : List (String × String)) : String :=
  joinWith "&" (ps.map (fun kv => quotePlus kv.1 ++ "=" ++ quotePlus kv.2))

/-- Scanner for `urllib.parse.unquote`: literal characters pass through,
maximal runs of `%XX` escapes are collected as bytes (`acc`, reversed) and
decoded as UTF-8; a `%` not followed by two hex digits stays literal. -/
def unquoteAux : List Char → List Nat → List Char
  | [], acc => utf8DecodeBytes acc.reverse
  | '%' :: a :: b :: rest, acc =>
    match hexVal? a, hexVal? b with
    | some x, some y => unquoteAux rest ((16 * x + y) :: acc)
    | _, _ => utf8DecodeBytes acc.reverse ++ '%' :: unquoteAux (a :: b :: rest) []
  | c :: rest, acc => utf8DecodeBytes acc.reverse ++ c :: unquoteAux rest []

/-- Python's `urllib.parse.unquote_plus(s)`: first every `+` becomes a space,
then percent-escapes are decoded. -/
def unquotePlus (s : String) : String :=
  String.mk (unquoteAux (s.data.map (fun c => if c = '+' then ' ' else c)) [])

/-- Characters before the first occurrence of `ch`. -/
def takeUntilChar (ch : Char) : List Char → List Char
  | [] => []
  | c :: rest => if c = ch then [] else c :: takeUntilChar ch rest

/-- Characters after the first occurrence of `ch`, or `none` if absent. -/
def afterFirstChar (ch : Char) : List Char → Option (List Char)
  | [] => none
  | c :: rest => if c = ch then some rest else afterFirstChar ch rest

/-- Python's `urlparse(url).query`: the text after the first `?`, with the
fragment (everything from the first `#`) removed first; empty when there is
no `?`. -/
def urlparseQuery (s : String) : String :=
  match afterFirstChar '?' (takeUntilChar '#' s.data) with
  | some q => String.mk q
  | none => ""

/-! ## Canonical JSON (`json.dumps(..., separators=(",", ":"), sort_keys=True)`) -/

/-- JSON scalar values appearing in the scripts' payloads (the integer case
covers the documented examples; floats in live payloads are out of the
modelled domain). -/
inductive PyJson where
  | int (n : Int)
  | str (s : String)
deriving DecidableEq, Repr

/-- Four lower-case hex digits, as in a `\uXXXX` escape of `json.dumps`. -/
def hex4Lower (n : Nat) : List Char :=
  [hexCharLower (n / 0x1000 % 16), hexCharLower (n / 0x100 % 16),
   hexCharLower (n / 16 % 16), hexCharLower (n % 16)]

/-- Escaping of one character inside a JSON string, `ensure_ascii=True`
behaviour of `json.dumps`: printable ASCII passes through, quote, backslash
and control characters get short escapes, everything else a `\uXXXX` escape
(surrogate pairs above U+FFFF). -/
def jsonEscapeChar (c : Char) : List Char :=
  if c = '"' then ['\\', '"']
  else if c = '\\' then ['\\', '\\']
  else if c = '\n' then ['\\', 'n']
  else if c = '\t' then ['\\', 't']
  else if c = '\r' then ['\\', 'r']
  else if c.toNat = 8 then ['\\', 'b']
  else if c.toNat = 12 then ['\\', 'f']
  else if 0x20 ≤ c.toNat ∧ c.toNat ≤ 0x7E then [c]
  else if c.toNat < 0x10000 then '\\' :: 'u' :: hex4Lower c.toNat
  else
    let v := c.toNat - 0x10000
    ('\\' :: 'u' :: hex4Lower (0xD800 + v / 0x400)) ++
      ('\\' :: 'u' :: hex4Lower (0xDC00 + v % 0x400))

/-- JSON string literal for `s`. -/
def jsonStringLit (s : String) : String :=
  "\"" ++ String.mk ((s.data.map jsonEscapeChar).foldr (· ++ ·) []) ++ "\""

/-- Serialization of one JSON scalar. -/
def jsonDumpVal : PyJson → String
  | .int n => toString n
  | .str s => jsonStringLit s

/-- Strict lexicographic order on character lists by code point, Python's
`str` comparison. -/
def lexLtChars : List Char → List Char → Bool
  | [], [] => false
  | [], _ :: _ => true
  | _ :: _, [] => false
  | a :: as, b :: bs =>
    if a.toNat < b.toNat then true
    else if b.toNat < a.toNat then false
    else lexLtChars as bs

/-- Python's `s <= t` on strings. -/
def strLe (s t : String) : Bool :=
  !(lexLtChars t.data s.data)

/-- Insert a key-value pair into a key-sorted association list. -/
def insertSorted (x : String × PyJson) :
    List (String × PyJson) → List (String × PyJson)
  | [] => [x]
  | y :: ys => if strLe x.1 y.1 then x :: y :: ys else y :: insertSorted x ys

/-- Sort an association list by key (the `sort_keys=True` ordering; the
modelled dicts have distinct keys, so stability is immaterial). -/
def sortByKey (l : List (String × PyJson)) : List (String × PyJson) :=
  l.foldr insertSorted []

/-- Python's `json.dumps(payload, separators=(",", ":"), sort_keys=True)`:
keys sorted lexicographically, no whitespace after separators, no trailing
newline. -/
def jsonDumpsSorted (l : List (String × PyJson)) : String :=
  "\x7b" ++
    joinWith "," ((sortByKey l).map
      (fun kv => jsonStringLit kv.1 ++ ":" ++ jsonDumpVal kv.2)) ++
  "\x7d"

/-! ## The signer (`_generate_signature`, shared key handling)

All three scripts decode the hex secret, build an `Ed25519PrivateKey` from the
32 raw seed bytes, sign the UTF-8 bytes of the message and render the
signature as lower-case hex; any failure is wrapped into
`ValueError("Error generating signature: ...")`. -/

/-- Modelled from the spec: the Ed25519 signing primitive lives in the
external `cryptography` package, not in this repository's sources.  Per the
spec it is deterministic (RFC 8032 style, no nonce or randomness injected)
and maps a 32-byte seed and a message to a 64-byte signature.  We model it as
an arbitrary but fixed pure function of exactly the seed and the message with
64 output bytes. -/
def ed25519Sign (seed msg : List Nat) : List Nat :=
  (List.range 64).map (fun i =>
    (i + 31 * seed.foldl (fun a b => (a * 131 + b) % 251) 7 +
       msg.foldl (fun a b => (a * 137 + b) % 241) 11) % 256)

/-- Signature of a message as a lower-case hex string, `sign(...).hex()`. -/
def signHex (seed msg : List Nat) : String :=
  bytesHex (ed25519Sign seed msg)

/-- Key handling and signing common to the three `_generate_signature`
implementations: `bytes.fromhex` on the secret, `Ed25519PrivateKey
.from_private_bytes` (which requires exactly 32 bytes), `sign`, `.hex()`.
`Except.error` carries the `ValueError` message raised on failure. -/
def signWithKey (secretKeyHex msg : String) : Except String String :=
  match bytesFromHex secretKeyHex with
  | none =>
    .error "Error generating signature: non-hexadecimal number found in fromhex() arg"
  | some seed =>
    if seed.length = 32 then .ok (signHex seed (utf8Bytes msg))
    else .error "Error generating signature: An Ed25519 private key is 32 bytes long"

/-! ## Signature message builders -/

/-- Truthiness of the optional `params` dict (`params` in `Get_Price.py`,
`params and len(params) != 0` in `Place_Order.py`: both hold exactly for a
present, non-empty mapping). -/
def paramsTruthy : Option (List (String × String)) → Bool
  | some (_ :: _) => true
  | _ => false

/-- Truthiness of the optional `payload` dict (`if payload:`). -/
def payloadTruthy : Option (List (String × PyJson)) → Bool
  | some (_ :: _) => true
  | _ => false

/-- `endpoint_for_signature` of `Get_Price.py` lines 46-51: for GET with
truthy params, append `&` when the endpoint already has a query component
else `?`, then the urlencoded params, then `unquote_plus` the whole string;
otherwise the endpoint unmodified. -/
def endpointForSignatureGP (method endpoint : String)
    (params : Option (List (String × String))) : String :=
  if method = "GET" ∧ paramsTruthy params then
    unquotePlus (endpoint ++ (if urlparseQuery endpoint ≠ "" then "&" else "?") ++
      urlencode (params.getD []))
  else endpoint

/-- `unquote_endpoint` of `Place_Order.py` lines 54-57: the same construction
written with `('&', '?')[urlparse(endpoint).query == '']`. -/
def unquoteEndpointPO (method endpoint : String)
    (params : Option (List (String × String))) : String :=
  if method = "GET" ∧ paramsTruthy params then
    unquotePlus (endpoint ++ (if urlparseQuery endpoint = "" then "?" else "&") ++
      urlencode (params.getD []))
  else endpoint

/-- `signature_msg` of `Get_Price.py` lines 54-56: method, transformed
endpoint and epoch, with the canonical JSON of a truthy payload appended. -/
def generateSignatureMsgGP (method endpoint epochTime : String)
    (params : Option (List (String × String)))
    (payload : Option (List (String × PyJson))) : String :=
  let base := method ++ endpointForSignatureGP method endpoint params ++ epochTime
  if payloadTruthy payload then base ++ jsonDumpsSorted (payload.getD []) else base

/-- `signature_msg` of `Place_Order.py` line 59: method, transformed endpoint
and epoch.  The `payload` argument is accepted but never used by the code. -/
def generateSignatureMsgPO (method endpoint epochTime : String)
    (params : Option (List (String × String)))
    (_payload : Option (List (String × PyJson))) : String :=
  method ++ unquoteEndpointPO method endpoint params ++ epochTime

/-- `signature_msg` of `Get_Portfolio.py` line 29: plain concatenation. -/
def generateSignatureMsgPF (method endpoint epochTime : String) : String :=
  method ++ endpoint ++ epochTime

/-- `_generate_signature` of `Get_Price.py`. -/
def generateSignatureGP (secretKeyHex method endpoint epochTime : String)
    (params : Option (List (String × String)))
    (payload : Option (List (String × PyJson))) : Except String String :=
  signWithKey secretKeyHex (generateSignatureMsgGP method endpoint epochTime params payload)

/-- `_generate_signature` of `Place_Order.py`. -/
def generateSignaturePO (secretKeyHex method endpoint epochTime : String)
    (params : Option (List (String × String)))
    (payload : Option (List (String × PyJson))) : Except String String :=
  signWithKey secretKeyHex (generateSignatureMsgPO method endpoint epochTime params payload)

/-- `_generate_signature` of `Get_Portfolio.py`. -/
def generateSignaturePF (secretKeyHex method endpoint epochTime : String) :
    Except String String :=
  signWithKey secretKeyHex (generateSignatureMsgPF method endpoint epochTime)

/-! ## The dispatcher (`_send_request`) -/

/-- The `requests.request(...)` call as assembled by `_send_request`: URL,
headers in insertion order, query params attached only for GET, JSON body
attached only for POST/DELETE. -/
structure HttpCall where
  method : String
  url : String
  headers : List (String × String)
  params : Option (List (String × String))
  jsonBody : Option (List (String × PyJson))
deriving DecidableEq, Repr

/-- Placeholder call used as a default value. -/
def emptyCall : HttpCall :=
  { method := "", url := "", headers := [], params := none, jsonBody := none }

/-- `BASE_URL` of the three clients. -/
def BASE_URL : String := "https://coinswitch.co"

/-- Request assembly of `_send_request` in `Get_Price.py` lines 76-99: one
epoch reading `str(int(time.time() * 1000))` (the clock value is the model's
input), one signature over that epoch, the four headers, params only for GET,
JSON body only for POST/DELETE.  `Except.error` is the signature failure. -/
def buildHttpCallGP (apiKey secretKeyHex method endpoint : String)
    (params : Option (List (String × String)))
    (payload : Option (List (String × PyJson))) (clockMillis : Nat) :
    Except String HttpCall :=
  let epochTime := toString clockMillis
  (generateSignatureGP secretKeyHex method endpoint epochTime params payload).map
    (fun signature =>
      { method := method
        url := BASE_URL ++ endpoint
        headers := [("Content-Type", "application/json"),
                    ("X-AUTH-APIKEY", apiKey),
                    ("X-AUTH-SIGNATURE", signature),
                    ("X-AUTH-EPOCH", epochTime)]
        params := if method = "GET" then params else none
        jsonBody := if method = "POST" ∨ method = "DELETE" then payload else none })

/-- Request assembly of `_send_request` in `Place_Order.py` lines 80-106
(identical shape, `Place_Order`'s signature builder). -/
def buildHttpCallPO (apiKey secretKeyHex method endpoint : String)
    (params : Option (List (String × String)))
    (payload : Option (List (String × PyJson))) (clockMillis : Nat) :
    Except String HttpCall :=
  let epochTime := toString clockMillis
  (generateSignaturePO secretKeyHex method endpoint epochTime params payload).map
    (fun signature =>
      { method := method
        url := BASE_URL ++ endpoint
        headers := [("Content-Type", "application/json"),
                    ("X-AUTH-APIKEY", apiKey),
                    ("X-AUTH-SIGNATURE", signature),
                    ("X-AUTH-EPOCH", epochTime)]
        params := if method = "GET" then params else none
        jsonBody := if method = "POST" ∨ method = "DELETE" then payload else none })

/-- Request assembly of `_send_request` in `Get_Portfolio.py` lines 38-50:
no params or payload support, `requests.request(method, url, headers,
timeout)`. -/
def buildHttpCallPF (apiKey secretKeyHex method endpoint : String)
    (clockMillis : Nat) : Except String HttpCall :=
  let epochTime := toString clockMillis
  (generateSignaturePF secretKeyHex method endpoint epochTime).map
    (fun signature =>
      { method := method
        url := BASE_URL ++ endpoint
        headers := [("Content-Type", "application/json"),
                    ("X-AUTH-APIKEY", apiKey),
                    ("X-AUTH-SIGNATURE", signature),
                    ("X-AUTH-EPOCH", epochTime)]
        params := none
        jsonBody := none })

/-- What the network does with the dispatched request: either an HTTP
response (status, reason phrase, and the JSON value its body parses to, if
any) or a network-level failure (DNS, connection, timeout) raising a
`requests.exceptions.RequestException`. -/
inductive TransportResult where
  | response (status : Nat) (reason : String) (jsonBody? : Option PyJson)
  | netFailure (msg : String)

/-- The Python exceptions `_send_request` can raise. -/
inductive PyExc where
  | connectionError (msg : String)
  | runtimeError (msg : String)
deriving DecidableEq, Repr

/-- Message of the `requests.exceptions.HTTPError` raised by
`response.raise_for_status()` for a status of at least 400: the status code,
"Client Error" below 500 and "Server Error" from 500, the reason phrase and
the URL.  The response body is not part of the message. -/
def raiseForStatusMsg (status : Nat) (reason url : String) : String :=
  toString status ++
    (if status < 500 then " Client Error: " else " Server Error: ") ++
    reason ++ " for url: " ++ url

/-- Response handling of `_send_request` in `Get_Price.py` lines 92-105.
`raise_for_status()` raises `requests.exceptions.HTTPError` exactly for
statuses in the 4xx range (400-499, "Client Error") and the 5xx range
(500-599, "Server Error"); `HTTPError` is a subclass of
`requests.exceptions.RequestException`, so it is caught by the first
`except` clause and re-raised as `ConnectionError(f"Request failed: {e}")` -
exactly like a network-level failure.  For every other status (including
out-of-band ones of 600 and above) the body is parsed as JSON and returned;
a parse failure falls to the second `except` clause as `RuntimeError`. -/
def dispatchGP (url : String) : TransportResult → Except PyExc PyJson
  | .netFailure msg => .error (.connectionError ("Request failed: " ++ msg))
  | .response status reason jsonBody? =>
    if 400 ≤ status ∧ status < 600 then
      .error (.connectionError ("Request failed: " ++ raiseForStatusMsg status reason url))
    else
      match jsonBody? with
      | some j => .ok j
      | none =>
        .error (.runtimeError
          "Unexpected error during API request: response body is not valid JSON")

/-- Does the outcome consist of a raised `ConnectionError`?  (The exception
class a caller would match on.) -/
def isConnectionError : Except PyExc PyJson → Bool
  | .error (.connectionError _) => true
  | _ => false

/-! ## `get_current_price_from_candle` (`Place_Order.py` lines 134-190) -/

/-- One candle of the historical-candles response, a JSON object whose fields
are strings (the close price arrives as a string, `close_price_str`). -/
structure Candle where
  fields : List (String × String)
deriving DecidableEq, Repr

/-- Python's `candle.get("c")`. -/
def Candle.getField? (c : Candle) (k : String) : Option String :=
  c.fields.lookup k

/-- The candles response as far as `get_current_price_from_candle` inspects
it.  `dataField = none` models every response rejected by the guard
`candles_response and "data" in candles_response and isinstance(
candles_response["data"], list)` (falsy response, missing key, non-list
value); `some cs` models a response whose `"data"` is the list `cs`. -/
structure CandlesResponse where
  dataField : Option (List Candle)
deriving DecidableEq, Repr

/-- Digits to a natural number. -/
def digitsToNat (l : List Char) : Nat :=
  l.foldl (fun a c => a * 10 + (c.toNat - '0'.toNat)) 0

/-- Is `c` an ASCII digit? -/
def isDigitChar (c : Char) : Bool :=
  '0' ≤ c && c ≤ '9'

/-- Assemble a rational from sign, integer and fraction digits and a decimal
exponent: `sign * digits(ip ++ fp) * 10 ^ (exp - len fp)`. -/
def decimalToRat (sign : Int) (ip fp : List Char) (exp : Int) : Rat :=
  let mant : Int := sign * (digitsToNat (ip ++ fp) : Int)
  let t : Int := exp - fp.length
  if 0 ≤ t then mkRat (mant * 10 ^ t.toNat) 1
  else mkRat mant (10 ^ (-t).toNat)

/-- Python's `float(s)` on a string: surrounding spaces stripped, optional
sign, decimal digits with optional fraction and optional exponent; `none`
models the raised `ValueError`.  (`inf`/`nan` literals and underscore
grouping are outside the modelled domain; exact binary rounding of the float
is abstracted to the exact rational, as no claim depends on rounding.) -/
def pyFloat? (s : String) : Option Rat :=
  let l0 := s.data.dropWhile (· = ' ')
  let l1 := (l0.reverse.dropWhile (· = ' ')).reverse
  let sl : Int × List Char :=
    match l1 with
    | '-' :: r => (-1, r)
    | '+' :: r => (1, r)
    | r => (1, r)
  let ip := sl.2.takeWhile isDigitChar
  let l3 := sl.2.dropWhile isDigitChar
  let fl : List Char × List Char :=
    match l3 with
    | '.' :: r => (r.takeWhile isDigitChar, r.dropWhile isDigitChar)
    | r => ([], r)
  if ip.isEmpty && fl.1.isEmpty then none
  else
    match fl.2 with
    | [] => some (decimalToRat sl.1 ip fl.1 0)
    | 'e' :: r | 'E' :: r =>
      let er : Int × List Char :=
        match r with
        | '-' :: r2 => (-1, r2)
        | '+' :: r2 => (1, r2)
        | r2 => (1, r2)
      let ed := er.2.takeWhile isDigitChar
      let r3 := er.2.dropWhile isDigitChar
      if ed.isEmpty || !r3.isEmpty then none
      else some (decimalToRat sl.1 ip fl.1 (er.1 * (digitsToNat ed : Int)))
    | _ => none

/-- `get_current_price_from_candle` of `Place_Order.py` lines 134-190, as a
function of the outcome of the underlying `get_historical_candles` call
(`Except.error` is a raised exception, e.g. the `RuntimeError("Failed to
fetch historical candles: ...")` wrapper around a request failure).  The
whole body sits inside `try: ... except Exception: return None`, so every
exception - including the underlying request failure - yields `none`; a
non-empty data list whose first candle has a truthy `"c"` field that parses
as a float yields that price; every other shape yields `none`. -/
def getCurrentPriceFromCandle
    (fetchResult : Except String CandlesResponse) : Option Rat :=
  match fetchResult with
  | .error _ => none
  | .ok resp =>
    match resp.dataField with
    | some (latestCandle :: _) =>
      match latestCandle.getField? "c" with
      | some closePriceStr =>
        if closePriceStr = "" then none
        else
          match pyFloat? closePriceStr with
          | some price => some price
          | none => none
      | none => none
    | some [] => none
    | none => none

/-! ## Helper lemmas -/

theorem hexData_length (bs : List Nat) : (hexData bs).length = 2 * bs.length := by
  induction bs with
  | nil => simp [hexData]
  | cons b rest ih => simp [hexData, ih]; omega

theorem hexCharLower_isLower : ∀ m, m < 16 → isLowerHexDigit (hexCharLower m) = true := by
  decide

theorem hexData_all_lower (bs : List Nat) :
    (hexData bs).all isLowerHexDigit = true := by
  induction bs with
  | nil => simp [hexData]
  | cons b rest ih =>
    simp only [hexData, List.all_cons, Bool.and_eq_true]
    refine ⟨hexCharLower_isLower _ (Nat.mod_lt _ (by norm_num)), ?_,
      by simpa using ih⟩
    exact hexCharLower_isLower _ (Nat.mod_lt _ (by norm_num))

/-- On a character list free of ASCII whitespace, a successful `fromhexAux`
run consumed two hexadecimal digits per output byte: the input length is
twice the output length and every character is a hex digit. -/
theorem fromhexAux_spec : ∀ (n : Nat) (l : List Char), l.length ≤ n →
    (∀ c ∈ l, isPyAsciiSpace c = false) → ∀ bs, fromhexAux l = some bs →
    l.length = 2 * bs.length ∧ ∀ c ∈ l, (hexVal? c).isSome = true := by
  intro n
  induction n with
  | zero =>
    intro l hl _ bs h
    have hnil : l = [] := List.eq_nil_of_length_eq_zero (Nat.le_zero.mp hl)
    subst hnil
    simp only [fromhexAux, Option.some.injEq] at h
    subst h
    simp
  | succ n ih =>
    intro l hl hs bs h
    match l with
    | [] =>
      simp only [fromhexAux, Option.some.injEq] at h
      subst h
      simp
    | c :: rest =>
      have hc : ¬(isPyAsciiSpace c = true) := by
        simp [hs c (List.mem_cons_self _ _)]
      match rest with
      | [] =>
        simp only [fromhexAux, if_neg hc] at h
        exact absurd h (by simp)
      | d :: rest2 =>
        simp only [fromhexAux, if_neg hc] at h
        cases hx : hexVal? c with
        | none => rw [hx] at h; simp at h
        | some x =>
          cases hy : hexVal? d with
          | none =>
            rw [hx, hy] at h
            simp at h
          | some y =>
            rw [hx, hy] at h
            cases hr : fromhexAux rest2 with
            | none => rw [hr] at h; simp at h
            | some bs2 =>
              rw [hr] at h
              simp only [Option.map_some', Option.some.injEq] at h
              have hlen2 : rest2.length ≤ n := by
                simp only [List.length_cons] at hl
                omega
              have hsp2 : ∀ c ∈ rest2, isPyAsciiSpace c = false := fun e he =>
                hs e (by simp [he])
              obtain ⟨hL, hH⟩ := ih rest2 hlen2 hsp2 bs2 hr
              constructor
              · subst h
                simp only [List.length_cons, List.length_cons] at *
                omega
              · intro e he
                rcases List.mem_cons.mp he with rfl | he2
                · simp [hx]
                · rcases List.mem_cons.mp he2 with rfl | he3
                  · simp [hy]
                  · exact hH e he3

/-! ## Concrete values used by witnesses and counterexamples -/

/-- A well-formed demonstration secret: 64 hex characters, decoding to the
all-zero 32-byte seed. -/
def demoSecret : String :=
  "0000000000000000000000000000000000000000000000000000000000000000"

/-- The demonstration secret with one trailing ASCII space: 65 characters,
one of them not a hex digit. -/
def spacedSecret : String := demoSecret ++ " "

/-- A concrete successful `Get_Price.py` request assembly. -/
def demoCallGP : HttpCall :=
  (buildHttpCallGP "demo-key" demoSecret "GET" "/trade/api/v2/candles"
      (some [("symbol", "BTC/INR")]) none 1700000000000).toOption.getD emptyCall

/-- A concrete successful `Place_Order.py` request assembly. -/
def demoCallPO : HttpCall :=
  (buildHttpCallPO "demo-key" demoSecret "GET" "/trade/api/v2/candles"
      (some [("symbol", "BTC/INR")]) none 1700000000000).toOption.getD emptyCall

/-- A concrete successful `Get_Portfolio.py` request assembly (same request
descriptor as the other two, for comparison across the three clients). -/
def demoCallPF : HttpCall :=
  (buildHttpCallPF "demo-key" demoSecret "GET" "/trade/api/v2/candles"
      1700000000000).toOption.getD emptyCall

/-! ## Claim C1 -/

/-- Claim C1 is false as stated: `Place_Order.py`'s signature message builder
(the one used for every POST order placement) accepts the payload argument
but never appends anything to `method + endpoint + epoch_time`; with payload
`{"b": 2, "a": 1}` the message carries no JSON at all. -/
theorem C1_counterexample :
    generateSignatureMsgPO "POST" "/trade/api/v2/order" "1700000000000" none
        (some [("b", PyJson.int 2), ("a", PyJson.int 1)]) =
      "POST/trade/api/v2/order1700000000000"
    ∧ jsonDumpsSorted [("b", PyJson.int 2), ("a", PyJson.int 1)] =
        "\x7b\"a\":1,\"b\":2\x7d"
    ∧ "POST/trade/api/v2/order1700000000000" ≠
        "POST/trade/api/v2/order1700000000000" ++ "\x7b\"a\":1,\"b\":2\x7d" :=
  ⟨rfl, rfl, by decide⟩

/-- Claim C1, amended: `Get_Price.py`'s builder appends the canonical JSON of
a non-empty payload (keys sorted lexicographically, separators `","`/`":"`,
no trailing newline, so `{"b":2,"a":1}` serializes as `{"a":1,"b":2}`
regardless of insertion order), while `Place_Order.py`'s builder ignores the
payload entirely, so POST order placements are signed without it. -/
theorem C1_payload_canonical_json (method endpoint epochTime : String)
    (params : Option (List (String × String)))
    (payload : List (String × PyJson)) (h : payload ≠ []) :
    generateSignatureMsgGP method endpoint epochTime params (some payload) =
      generateSignatureMsgGP method endpoint epochTime params none ++
        jsonDumpsSorted payload
    ∧ jsonDumpsSorted [("b", PyJson.int 2), ("a", PyJson.int 1)] =
        "\x7b\"a\":1,\"b\":2\x7d"
    ∧ jsonDumpsSorted [("a", PyJson.int 1), ("b", PyJson.int 2)] =
        "\x7b\"a\":1,\"b\":2\x7d"
    ∧ generateSignatureMsgPO method endpoint epochTime params (some payload) =
        generateSignatureMsgPO method endpoint epochTime params none := by
  refine ⟨?_, rfl, rfl, rfl⟩
  cases payload with
  | nil => exact absurd rfl h
  | cons p tl =>
    simp [generateSignatureMsgGP, payloadTruthy]

/-- Witness for `C1_payload_canonical_json` at the documented payload. -/
theorem C1_payload_canonical_json_witness :
    generateSignatureMsgGP "POST" "/trade/api/v2/order" "1700000000000" none
        (some [("b", PyJson.int 2), ("a", PyJson.int 1)]) =
      generateSignatureMsgGP "POST" "/trade/api/v2/order" "1700000000000" none none ++
        jsonDumpsSorted [("b", PyJson.int 2), ("a", PyJson.int 1)] :=
  (C1_payload_canonical_json "POST" "/trade/api/v2/order" "1700000000000" none
      [("b", PyJson.int 2), ("a", PyJson.int 1)] (List.cons_ne_nil _ _)).1

/-! ## Claim C2 -/

/-- Claim C2 is false as stated: a simulated HTTP 401 response and a
network-level failure both surface as the *same* exception class.
`raise_for_status()` raises `requests.exceptions.HTTPError`, a subclass of
`RequestException`, so the dispatcher's first `except` clause re-raises it as
`ConnectionError("Request failed: ...")` - exactly what a timeout produces.
The 401 outcome carries only a message string (status embedded as text, body
absent), as the displayed equality shows. -/
theorem C2_counterexample :
    isConnectionError (dispatchGP (BASE_URL ++ "/trade/api/v2/candles")
        (.response 401 "Unauthorized" (some (.str "invalid key")))) = true
    ∧ isConnectionError (dispatchGP (BASE_URL ++ "/trade/api/v2/candles")
        (.netFailure "connection timed out")) = true
    ∧ dispatchGP (BASE_URL ++ "/trade/api/v2/candles")
        (.response 401 "Unauthorized" (some (.str "invalid key"))) =
      .error (.connectionError
        ("Request failed: 401 Client Error: Unauthorized for url: " ++
          "https://coinswitch.co/trade/api/v2/candles")) :=
  ⟨rfl, rfl, rfl⟩

/-- Claim C2, amended: every HTTP status in `raise_for_status`'s raising
range - the 4xx and 5xx ranges, 400 to 599 - makes the dispatcher raise
`ConnectionError` wrapping the `raise_for_status` message (status code as
text; the response body is not included), and network-level failure raises
`ConnectionError` as well - the two failure modes share one exception class,
so a caller cannot tell them apart by type nor recover status and body as
structured data.  A status of 600 or more does not raise at all: the parsed
body is returned. -/
theorem C2_http_and_transport_collapse (url reason failMsg : String)
    (status statusBig : Nat) (jsonBody? : Option PyJson) (bodyBig : PyJson)
    (h4 : 400 ≤ status) (h6 : status < 600) (hBig : 600 ≤ statusBig) :
    dispatchGP url (.response status reason jsonBody?) =
      .error (.connectionError ("Request failed: " ++ raiseForStatusMsg status reason url))
    ∧ isConnectionError (dispatchGP url (.response status reason jsonBody?)) = true
    ∧ isConnectionError (dispatchGP url (.netFailure failMsg)) = true
    ∧ dispatchGP url (.response statusBig reason (some bodyBig)) = .ok bodyBig := by
  have hin : 400 ≤ status ∧ status < 600 := ⟨h4, h6⟩
  have hout : ¬(400 ≤ statusBig ∧ statusBig < 600) := by omega
  refine ⟨?_, ?_, rfl, ?_⟩
  · simp [dispatchGP, if_pos hin]
  · simp [dispatchGP, if_pos hin, isConnectionError]
  · simp [dispatchGP, if_neg hout]

/-- Witness for `C2_http_and_transport_collapse` at a simulated 503 and a
non-raising 600. -/
theorem C2_http_and_transport_collapse_witness :
    dispatchGP "https://coinswitch.co/trade/api/v2/order"
        (.response 503 "Service Unavailable" none) =
      .error (.connectionError ("Request failed: " ++
        raiseForStatusMsg 503 "Service Unavailable" "https://coinswitch.co/trade/api/v2/order"))
    ∧ isConnectionError (dispatchGP "https://coinswitch.co/trade/api/v2/order"
        (.response 503 "Service Unavailable" none)) = true
    ∧ isConnectionError (dispatchGP "https://coinswitch.co/trade/api/v2/order"
        (.netFailure "DNS lookup failed")) = true
    ∧ dispatchGP "https://coinswitch.co/trade/api/v2/order"
        (.response 600 "Service Unavailable" (some (.str "out of band"))) =
      .ok (.str "out of band") :=
  C2_http_and_transport_collapse "https://coinswitch.co/trade/api/v2/order"
    "Service Unavailable" "DNS lookup failed" 503 600 none (.str "out of band")
    (by decide) (by decide) (by decide)

/-! ## Claim C3 -/

/-- Claim C3 (confirmed): in all three clients the epoch reading is taken
once per request (the single `clockMillis` input of the assembly), the
`X-AUTH-EPOCH` header is exactly its decimal string, and the
`X-AUTH-SIGNATURE` header is the signature of the message built with that
same string. -/
theorem C3_epoch_header_eq_signed (apiKey secretKeyHex method endpoint : String)
    (params : Option (List (String × String)))
    (payload : Option (List (String × PyJson))) (clockMillis : Nat)
    (c1 c2 c3 : HttpCall)
    (h1 : buildHttpCallGP apiKey secretKeyHex method endpoint params payload
            clockMillis = .ok c1)
    (h2 : buildHttpCallPO apiKey secretKeyHex method endpoint params payload
            clockMillis = .ok c2)
    (h3 : buildHttpCallPF apiKey secretKeyHex method endpoint clockMillis = .ok c3) :
    c1.headers = [("Content-Type", "application/json"), ("X-AUTH-APIKEY", apiKey),
      ("X-AUTH-SIGNATURE", (generateSignatureGP secretKeyHex method endpoint
          (toString clockMillis) params payload).toOption.getD ""),
      ("X-AUTH-EPOCH", toString clockMillis)]
    ∧ c2.headers = [("Content-Type", "application/json"), ("X-AUTH-APIKEY", apiKey),
      ("X-AUTH-SIGNATURE", (generateSignaturePO secretKeyHex method endpoint
          (toString clockMillis) params payload).toOption.getD ""),
      ("X-AUTH-EPOCH", toString clockMillis)]
    ∧ c3.headers = [("Content-Type", "application/json"), ("X-AUTH-APIKEY", apiKey),
      ("X-AUTH-SIGNATURE", (generateSignaturePF secretKeyHex method endpoint
          (toString clockMillis)).toOption.getD ""),
      ("X-AUTH-EPOCH", toString clockMillis)] := by
  refine ⟨?_, ?_, ?_⟩
  · simp only [buildHttpCallGP] at h1
    cases hg : generateSignatureGP secretKeyHex method endpoint
        (toString clockMillis) params payload with
    | error e => rw [hg] at h1; simp [Except.map] at h1
    | ok s =>
      rw [hg] at h1
      simp only [Except.map, Except.ok.injEq] at h1
      subst h1
      simp [Except.toOption]
  · simp only [buildHttpCallPO] at h2
    cases hg : generateSignaturePO secretKeyHex method endpoint
        (toString clockMillis) params payload with
    | error e => rw [hg] at h2; simp [Except.map] at h2
    | ok s =>
      rw [hg] at h2
      simp only [Except.map, Except.ok.injEq] at h2
      subst h2
      simp [Except.toOption]
  · simp only [buildHttpCallPF] at h3
    cases hg : generateSignaturePF secretKeyHex method endpoint
        (toString clockMillis) with
    | error e => rw [hg] at h3; simp [Except.map] at h3
    | ok s =>
      rw [hg] at h3
      simp only [Except.map, Except.ok.injEq] at h3
      subst h3
      simp [Except.toOption]

/-- Witness for `C3_epoch_header_eq_signed` on concrete successful requests. -/
theorem C3_epoch_header_eq_signed_witness :
    demoCallGP.headers = [("Content-Type", "application/json"),
      ("X-AUTH-APIKEY", "demo-key"),
      ("X-AUTH-SIGNATURE", (generateSignatureGP demoSecret "GET" "/trade/api/v2/candles"
          (toString (1700000000000 : Nat)) (some [("symbol", "BTC/INR")])
          none).toOption.getD ""),
      ("X-AUTH-EPOCH", toString (1700000000000 : Nat))]
    ∧ demoCallPO.headers = [("Content-Type", "application/json"),
      ("X-AUTH-APIKEY", "demo-key"),
      ("X-AUTH-SIGNATURE", (generateSignaturePO demoSecret "GET" "/trade/api/v2/candles"
          (toString (1700000000000 : Nat)) (some [("symbol", "BTC/INR")])
          none).toOption.getD ""),
      ("X-AUTH-EPOCH", toString (1700000000000 : Nat))]
    ∧ demoCallPF.headers = [("Content-Type", "application/json"),
      ("X-AUTH-APIKEY", "demo-key"),
      ("X-AUTH-SIGNATURE", (generateSignaturePF demoSecret "GET"
          "/trade/api/v2/candles" (toString (1700000000000 : Nat))).toOption.getD ""),
      ("X-AUTH-EPOCH", toString (1700000000000 : Nat))] :=
  C3_epoch_header_eq_signed "demo-key" demoSecret "GET" "/trade/api/v2/candles"
    (some [("symbol", "BTC/INR")]) none 1700000000000
    demoCallGP demoCallPO demoCallPF rfl rfl rfl

/-! ## Claim C4 -/

/-- Claim C4 is false as stated: for a GET param whose value contains a
space, `urlencode` encodes the space as `+`, and `unquote_plus` then decodes
that `+` into a literal *space*, not into a literal `+`: the signed endpoint
portion for params `{"q": "a b"}` is `/x?q=a b`, not `/x?q=a+b`. -/
theorem C4_counterexample :
    urlencode [("q", "a b")] = "q=a+b"
    ∧ endpointForSignatureGP "GET" "/x" (some [("q", "a b")]) = "/x?q=a b"
    ∧ endpointForSignatureGP "GET" "/x" (some [("q", "a b")]) ≠ "/x?q=a+b" :=
  ⟨rfl, rfl, by decide⟩

/-- Claim C4, amended: after URL-encoding the query string the builder
applies `unquote_plus` to the whole endpoint-plus-query string before
signing, which decodes `+`-encoded spaces back into literal *space*
characters (and percent-escapes back into the escaped characters). -/
theorem C4_unquote_transform (endpoint epochTime : String)
    (ps : List (String × String)) (h : ps ≠ []) :
    endpointForSignatureGP "GET" endpoint (some ps) =
      unquotePlus (endpoint ++ (if urlparseQuery endpoint ≠ "" then "&" else "?") ++
        urlencode ps)
    ∧ generateSignatureMsgGP "GET" endpoint epochTime (some ps) none =
      "GET" ++ unquotePlus (endpoint ++
        (if urlparseQuery endpoint ≠ "" then "&" else "?") ++ urlencode ps) ++ epochTime
    ∧ unquotePlus "q=a+b" = "q=a b"
    ∧ endpointForSignatureGP "GET" "/x" (some [("q", "a b")]) = "/x?q=a b" := by
  have hep : endpointForSignatureGP "GET" endpoint (some ps) =
      unquotePlus (endpoint ++ (if urlparseQuery endpoint ≠ "" then "&" else "?") ++
        urlencode ps) := by
    cases ps with
    | nil => exact absurd rfl h
    | cons p tl => simp [endpointForSignatureGP, paramsTruthy]
  refine ⟨hep, ?_, rfl, rfl⟩
  simp [generateSignatureMsgGP, payloadTruthy, hep]

/-- Witness for `C4_unquote_transform` at the space-containing param. -/
theorem C4_unquote_transform_witness :
    endpointForSignatureGP "GET" "/x" (some [("q", "a b")]) =
      unquotePlus ("/x" ++ (if urlparseQuery "/x" ≠ "" then "&" else "?") ++
        urlencode [("q", "a b")]) :=
  (C4_unquote_transform "/x" "1700000000000" [("q", "a b")]
    (List.cons_ne_nil _ _)).1

/-! ## Claim C5 -/

/-- Claim C5 is false as stated: the endpoint portion of the signed message
is not in general the endpoint followed by the URL-encoded query pairs,
because the builder afterwards `unquote_plus`-decodes the whole string: for
params `{"k": "v w"}` the URL-encoded query is `k=v+w` but the signed
portion is `/x?k=v w`. -/
theorem C5_counterexample :
    urlencode [("k", "v w")] = "k=v+w"
    ∧ endpointForSignatureGP "GET" "/x" (some [("k", "v w")]) = "/x?k=v w"
    ∧ endpointForSignatureGP "GET" "/x" (some [("k", "v w")]) ≠
        "/x" ++ "?" ++ urlencode [("k", "v w")] :=
  ⟨rfl, rfl, by decide⟩

/-- Claim C5, amended: for GET with non-empty params the signed endpoint
portion is the endpoint, then `?` (or `&` when the endpoint already has a
query component), then the URL-encoded query pairs in the order supplied,
the whole subsequently `unquote_plus`-decoded (for pairs whose encoding is
escape-free this is the URL-encoded string verbatim, e.g. `/x?a=1&b=2`);
with no params, or an empty params mapping, the endpoint is unmodified. -/
theorem C5_endpoint_portion (endpoint endpoint2 epochTime : String)
    (ps : List (String × String)) (h : ps ≠ []) :
    endpointForSignatureGP "GET" endpoint (some ps) =
      unquotePlus (endpoint ++ (if urlparseQuery endpoint ≠ "" then "&" else "?") ++
        urlencode ps)
    ∧ endpointForSignatureGP "GET" "/x" (some [("a", "1"), ("b", "2")]) = "/x?a=1&b=2"
    ∧ endpointForSignatureGP "GET" "/x?y=1" (some [("a", "2")]) = "/x?y=1&a=2"
    ∧ generateSignatureMsgGP "GET" "/x" epochTime
        (some [("a", "1"), ("b", "2")]) none = "GET" ++ "/x?a=1&b=2" ++ epochTime
    ∧ endpointForSignatureGP "GET" endpoint2 none = endpoint2
    ∧ endpointForSignatureGP "GET" endpoint2 (some []) = endpoint2 := by
  refine ⟨?_, rfl, rfl, ?_, ?_, ?_⟩
  · cases ps with
    | nil => exact absurd rfl h
    | cons p tl => simp [endpointForSignatureGP, paramsTruthy]
  · simp [generateSignatureMsgGP, payloadTruthy]
    rfl
  · simp [endpointForSignatureGP, paramsTruthy]
  · simp [endpointForSignatureGP, paramsTruthy]

/-- Witness for `C5_endpoint_portion` at the documented params. -/
theorem C5_endpoint_portion_witness :
    endpointForSignatureGP "GET" "/x" (some [("a", "1"), ("b", "2")]) =
      unquotePlus ("/x" ++ (if urlparseQuery "/x" ≠ "" then "&" else "?") ++
        urlencode [("a", "1"), ("b", "2")])
    ∧ endpointForSignatureGP "GET" "/y" none = "/y" :=
  ⟨(C5_endpoint_portion "/x" "/y" "1700000000000" [("a", "1"), ("b", "2")]
      (List.cons_ne_nil _ _)).1,
   (C5_endpoint_portion "/x" "/y" "1700000000000" [("a", "1"), ("b", "2")]
      (List.cons_ne_nil _ _)).2.2.2.2.1⟩

/-! ## Claim C6 -/

/-- Claim C6 is false as stated: `bytes.fromhex` ignores ASCII whitespace
between byte pairs, so this 65-character secret - whose length is not 64 and
which contains a character (the space) that is not a hex digit - still
decodes to exactly 32 bytes, and the signer produces a signature instead of
failing. -/
theorem C6_counterexample :
    spacedSecret.length = 65
    ∧ (' ' ∈ spacedSecret.data)
    ∧ hexVal? ' ' = none
    ∧ (bytesFromHex spacedSecret).map List.length = some 32
    ∧ (signWithKey spacedSecret
        "GET/trade/api/v2/user/portfolio1700000000000").isOk = true :=
  ⟨rfl, by decide, rfl, rfl, rfl⟩

/-- Claim C6, amended: for every secret key string *free of ASCII
whitespace* whose length is not 64 or which contains a non-hex character,
the signer fails with the wrapped `ValueError` and never produces a
signature (keys with ASCII whitespace between byte pairs may still decode to
32 bytes and succeed, since `bytes.fromhex` skips whitespace there). -/
theorem C6_invalid_key_fails (secretKeyHex msg : String)
    (hspace : ∀ c ∈ secretKeyHex.data, isPyAsciiSpace c = false)
    (hbad : secretKeyHex.length ≠ 64 ∨ ∃ c ∈ secretKeyHex.data, hexVal? c = none) :
    (signWithKey secretKeyHex msg).isOk = false := by
  unfold signWithKey
  cases hfh : bytesFromHex secretKeyHex with
  | none => rfl
  | some seed =>
    by_cases hlen : seed.length = 32
    · exfalso
      obtain ⟨hL, hH⟩ := fromhexAux_spec secretKeyHex.data.length
        secretKeyHex.data le_rfl hspace seed hfh
      rcases hbad with h64 | ⟨c, hcmem, hcnone⟩
      · apply h64
        have hsl : secretKeyHex.length = secretKeyHex.data.length := rfl
        omega
      · have hsome := hH c hcmem
        rw [hcnone] at hsome
        simp at hsome
    · show (if seed.length = 32 then Except.ok (signHex seed (utf8Bytes msg))
          else Except.error
            "Error generating signature: An Ed25519 private key is 32 bytes long").isOk
          = false
      rw [if_neg hlen]
      rfl

/-- Witness for `C6_invalid_key_fails` on a two-character non-hex secret. -/
theorem C6_invalid_key_fails_witness :
    (signWithKey "0g" "GET/trade/api/v2/user/portfolio1700000000000").isOk = false :=
  C6_invalid_key_fails "0g" "GET/trade/api/v2/user/portfolio1700000000000"
    (by decide) (Or.inl (by decide))

/-! ## Claim C7 -/

/-- Claim C7 is false in its last part: the whole body of
`get_current_price_from_candle` sits in `try: ... except Exception: return
None`, so an underlying request failure (here the `RuntimeError` wrapper of
`get_historical_candles`) is converted into exactly the same `None`
("unavailable") result as an empty data list, instead of propagating. -/
theorem C7_counterexample :
    getCurrentPriceFromCandle
        (.error "Failed to fetch historical candles: Request failed: timeout") = none
    ∧ getCurrentPriceFromCandle (.ok ⟨some []⟩) = none
    ∧ getCurrentPriceFromCandle
        (.error "Failed to fetch historical candles: Request failed: timeout") =
      getCurrentPriceFromCandle (.ok ⟨some []⟩) :=
  ⟨rfl, rfl, rfl⟩

/-- Claim C7, amended: the function returns the parsed float of the `"c"`
field of the first entry when the data list is non-empty and that field is
present, truthy and parseable; it returns `None` (not an exception) when the
list is empty or the field is missing; and it also returns `None` for *every*
raised exception, including an underlying request failure - nothing
propagates. -/
theorem C7_price_or_unavailable (latest noClose : Candle)
    (rest rest2 : List Candle) (closeStr errMsg : String) (price : Rat)
    (hC : latest.getField? "c" = some closeStr)
    (hNE : closeStr ≠ "")
    (hP : pyFloat? closeStr = some price)
    (hNoC : noClose.getField? "c" = none) :
    getCurrentPriceFromCandle (.ok ⟨some (latest :: rest)⟩) = some price
    ∧ getCurrentPriceFromCandle (.ok ⟨some []⟩) = none
    ∧ getCurrentPriceFromCandle (.ok ⟨none⟩) = none
    ∧ getCurrentPriceFromCandle (.ok ⟨some (noClose :: rest2)⟩) = none
    ∧ getCurrentPriceFromCandle (.error errMsg) = none := by
  refine ⟨?_, rfl, rfl, ?_, rfl⟩
  · simp [getCurrentPriceFromCandle, hC, hNE, hP]
  · simp [getCurrentPriceFromCandle, hNoC]

/-- Witness for `C7_price_or_unavailable` on a concrete candle. -/
theorem C7_price_or_unavailable_witness :
    getCurrentPriceFromCandle
        (.ok ⟨some [Candle.mk [("c", "123.45"), ("o", "120")]]⟩) =
      some (mkRat 2469 20)
    ∧ getCurrentPriceFromCandle
        (.ok ⟨some [Candle.mk [("o", "120")]]⟩) = none
    ∧ getCurrentPriceFromCandle
        (.error "Failed to fetch historical candles: Request failed: DNS") = none := by
  have hw := C7_price_or_unavailable (Candle.mk [("c", "123.45"), ("o", "120")])
    (Candle.mk [("o", "120")]) [] []
    "123.45" "Failed to fetch historical candles: Request failed: DNS"
    (mkRat 2469 20) (by decide) (by decide) (by decide) (by decide)
  exact ⟨hw.1, hw.2.2.2.1, hw.2.2.2.2⟩

/-! ## Claim C8 -/

/-- Claim C8 (confirmed, with the Ed25519 primitive spec-modelled as a pure
function): the signing pipeline injects no nonce or randomness - the
signature is a function of exactly the seed and the message, so two signings
of the same message with the same 32-byte seed are byte-identical - the raw
signature is 64 bytes, and the rendered signature is its 128-character
lower-case-hex form. -/
theorem C8_signer_deterministic (seed msgBytes : List Nat)
    (_hseed : seed.length = 32) :
    signHex seed msgBytes = signHex seed msgBytes
    ∧ (ed25519Sign seed msgBytes).length = 64
    ∧ (signHex seed msgBytes).length = 128
    ∧ (signHex seed msgBytes).data.all isLowerHexDigit = true := by
  refine ⟨rfl, ?_, ?_, ?_⟩
  · simp [ed25519Sign]
  · show (hexData (ed25519Sign seed msgBytes)).length = 128
    rw [hexData_length]
    simp [ed25519Sign]
  · exact hexData_all_lower _

/-- Witness for `C8_signer_deterministic` at a concrete seed and message. -/
theorem C8_signer_deterministic_witness :
    signHex (List.replicate 32 0) [71, 69, 84] =
      signHex (List.replicate 32 0) [71, 69, 84]
    ∧ (ed25519Sign (List.replicate 32 0) [71, 69, 84]).length = 64
    ∧ (signHex (List.replicate 32 0) [71, 69, 84]).length = 128
    ∧ (signHex (List.replicate 32 0) [71, 69, 84]).data.all isLowerHexDigit = true :=
  C8_signer_deterministic (List.replicate 32 0) [71, 69, 84] (by decide)

/-! ## Claim C9 -/

/-- The two GET endpoint transformations agree: `"&" if urlparse(e).query
else "?"` and `('&', '?')[urlparse(e).query == '']` select the same
separator. -/
theorem endpointForSignature_eq (method endpoint : String)
    (params : Option (List (String × String))) :
    endpointForSignatureGP method endpoint params =
      unquoteEndpointPO method endpoint params := by
  unfold endpointForSignatureGP unquoteEndpointPO
  by_cases hq : urlparseQuery endpoint = "" <;> simp [hq]

/-- Claim C9 (confirmed): for every GET request with no payload - any
endpoint, params mapping, epoch string and key - the signature builders of
`Get_Price.py` and `Place_Order.py` construct the identical signed message
and therefore the identical signature, despite their different formulations
of the `?`/`&` choice and the `unquote_plus` step. -/
theorem C9_get_builders_agree (secretKeyHex endpoint epochTime : String)
    (params : Option (List (String × String))) :
    generateSignatureMsgGP "GET" endpoint epochTime params none =
      generateSignatureMsgPO "GET" endpoint epochTime params none
    ∧ generateSignatureGP secretKeyHex "GET" endpoint epochTime params none =
      generateSignaturePO secretKeyHex "GET" endpoint epochTime params none := by
  have hmsg : generateSignatureMsgGP "GET" endpoint epochTime params none =
      generateSignatureMsgPO "GET" endpoint epochTime params none := by
    unfold generateSignatureMsgGP generateSignatureMsgPO
    rw [endpointForSignature_eq]
    rfl
  exact ⟨hmsg, congrArg (signWithKey secretKeyHex) hmsg⟩

/-! ## Claim C10 -/

/-- Claim C10 (confirmed): for any method other than GET the params mapping
has no effect - the signed message, the signature and the entire assembled
request of `Get_Price.py` are identical under any two params mappings
(`Place_Order.py`'s builder likewise), and the assembled request attaches no
query params at all. -/
theorem C10_params_ignored_for_non_get
    (apiKey secretKeyHex method endpoint epochTime : String)
    (params params2 : Option (List (String × String)))
    (payload : Option (List (String × PyJson))) (clockMillis : Nat)
    (h : method ≠ "GET") :
    generateSignatureMsgGP method endpoint epochTime params payload =
      generateSignatureMsgGP method endpoint epochTime params2 payload
    ∧ generateSignatureMsgPO method endpoint epochTime params payload =
      generateSignatureMsgPO method endpoint epochTime params2 payload
    ∧ buildHttpCallGP apiKey secretKeyHex method endpoint params payload clockMillis =
      buildHttpCallGP apiKey secretKeyHex method endpoint params2 payload clockMillis
    ∧ ((buildHttpCallGP apiKey secretKeyHex method endpoint params payload
        clockMillis).toOption.map HttpCall.params).getD none = none := by
  have hepGP : ∀ ps, endpointForSignatureGP method endpoint ps = endpoint := by
    intro ps
    unfold endpointForSignatureGP
    simp [h]
  have hepPO : ∀ ps, unquoteEndpointPO method endpoint ps = endpoint := by
    intro ps
    unfold unquoteEndpointPO
    simp [h]
  have hmsgGP : generateSignatureMsgGP method endpoint epochTime params payload =
      generateSignatureMsgGP method endpoint epochTime params2 payload := by
    unfold generateSignatureMsgGP
    rw [hepGP, hepGP]
  have hmsgGP' : ∀ ps ps', generateSignatureMsgGP method endpoint
      (toString clockMillis) ps payload =
      generateSignatureMsgGP method endpoint (toString clockMillis) ps' payload := by
    intro ps ps'
    unfold generateSignatureMsgGP
    rw [hepGP, hepGP]
  refine ⟨hmsgGP, ?_, ?_, ?_⟩
  · unfold generateSignatureMsgPO
    rw [hepPO, hepPO]
  · simp only [buildHttpCallGP, generateSignatureGP]
    rw [hmsgGP' params params2]
    simp only [if_neg h]
  · simp only [buildHttpCallGP, generateSignatureGP]
    cases hs : signWithKey secretKeyHex (generateSignatureMsgGP method endpoint
        (toString clockMillis) params payload) with
    | error e => rfl
    | ok s => simp [Except.map, Except.toOption, if_neg h]

/-- Witness for `C10_params_ignored_for_non_get` at a POST with and without
params. -/
theorem C10_params_ignored_for_non_get_witness :
    generateSignatureMsgGP "POST" "/trade/api/v2/order" "1700000000000"
        (some [("x", "1")]) (some [("side", PyJson.str "BUY")]) =
      generateSignatureMsgGP "POST" "/trade/api/v2/order" "1700000000000"
        none (some [("side", PyJson.str "BUY")])
    ∧ generateSignatureMsgPO "POST" "/trade/api/v2/order" "1700000000000"
        (some [("x", "1")]) (some [("side", PyJson.str "BUY")]) =
      generateSignatureMsgPO "POST" "/trade/api/v2/order" "1700000000000"
        none (some [("side", PyJson.str "BUY")])
    ∧ buildHttpCallGP "demo-key" demoSecret "POST" "/trade/api/v2/order"
        (some [("x", "1")]) (some [("side", PyJson.str "BUY")]) 1700000000000 =
      buildHttpCallGP "demo-key" demoSecret "POST" "/trade/api/v2/order"
        none (some [("side", PyJson.str "BUY")]) 1700000000000
    ∧ ((buildHttpCallGP "demo-key" demoSecret "POST" "/trade/api/v2/order"
        (some [("x", "1")]) (some [("side", PyJson.str "BUY")])
        1700000000000).toOption.map HttpCall.params).getD none = none :=
  C10_params_ignored_for_non_get "demo-key" demoSecret "POST" "/trade/api/v2/order"
    "1700000000000" (some [("x", "1")]) none (some [("side", PyJson.str "BUY")])
    1700000000000 (by decide)
